import Mathlib

/-!
Verification of the requirements-generator agent configuration
(`src/agents/requirements_generator.py`).

The file declares pydantic schemas (`UserRequirementsSchema`,
`RequirementsGeneratorInputSchema`, `RequirementsGeneratorOutputSchema`),
a `CurrentDateProvider` context provider that freezes the wall-clock date
at construction, and a `SystemPromptGenerator` configuration.  We embed
the data model and the validation semantics the declarations induce, and
prove the behavioural contract stated in the specification.
-/

namespace TransportPlanner

/-- A Python runtime value, as far as pydantic validation needs to
inspect it.  Used to model what a caller (or the model backend) can
supply for a schema field. -/
inductive PyValue where
  | str (s : String)
  | int (n : Int)
  | bool (b : Bool)
  | none
  | list (xs : List PyValue)
  | dict (fields : List (String × PyValue))

/-- Whether a Python value is a string.  Pydantic v2 validates a `str`
field by exactly this check: no coercion from `int`, `bool`, `None`,
lists or dicts is performed. -/
def PyValue.isStr : PyValue → Bool
  | .str _ => true
  | _ => false

/-- Extract the string out of a Python value, failing on any other type.
This is the validation pydantic applies to a required `str` field once
the field is present. -/
def pyStr? : PyValue → Option String
  | .str s => some s
  | _ => Option.none

/-- Look up a required field in the keyword arguments / parsed JSON
object and validate it as a string: missing field or non-string value
both fail. -/
def requireStrField (fields : List (String × PyValue)) (name : String) : Option String :=
  (fields.lookup name).bind pyStr?

/-- `UserRequirementsSchema` (requirements_generator.py lines 15-20):
three required `str` fields `destination`, `departure_date`,
`departure_time`.  The declared date/time formats appear only in the
field descriptions, not as validators. -/
structure UserRequirementsSchema where
  destination : String
  departure_date : String
  departure_time : String
deriving DecidableEq

/-- Pydantic validation of `UserRequirementsSchema` on a field mapping:
each of the three fields must be present and be a string; nothing else
is checked (in particular no format check on the date or time). -/
def UserRequirementsSchema.validate (fields : List (String × PyValue)) :
    Option UserRequirementsSchema := do
  let d ← requireStrField fields "destination"
  let dd ← requireStrField fields "departure_date"
  let dt ← requireStrField fields "departure_time"
  return { destination := d, departure_date := dd, departure_time := dt }

/-- `RequirementsGeneratorInputSchema` (lines 23-26): a single required
`str` field `chat_message`. -/
structure RequirementsGeneratorInputSchema where
  chat_message : String
deriving DecidableEq

/-- Pydantic validation of the input schema constructor
`RequirementsGeneratorInputSchema(chat_message=v)`: the value must be a
string and is stored unchanged. -/
def RequirementsGeneratorInputSchema.validate (v : PyValue) :
    Option RequirementsGeneratorInputSchema :=
  match v with
  | .str s => some { chat_message := s }
  | _ => Option.none

/-- Validate a Python value as a nested `UserRequirementsSchema`: the
value must be an object, which is then validated field by field. -/
def asUserRequirements : PyValue → Option UserRequirementsSchema
  | .dict fields => UserRequirementsSchema.validate fields
  | _ => Option.none

/-- `RequirementsGeneratorOutputSchema` (lines 29-32): one required
field `user_requirements` holding a `UserRequirementsSchema`. -/
structure RequirementsGeneratorOutputSchema where
  user_requirements : UserRequirementsSchema
deriving DecidableEq

/-- Pydantic validation of the output contract on a candidate output
object: the `user_requirements` field must be present and validate as a
`UserRequirementsSchema`. -/
def RequirementsGeneratorOutputSchema.validate (fields : List (String × PyValue)) :
    Option RequirementsGeneratorOutputSchema := do
  let v ← fields.lookup "user_requirements"
  let ur ← asUserRequirements v
  return { user_requirements := ur }

/-- A calendar date as read from the wall clock (`datetime.now()`). -/
structure Date where
  year : Nat
  month : Nat
  day : Nat
deriving DecidableEq

/-- Decimal rendering of a natural number, without padding: the model of
the `%Y` directive of `strftime` (which does not pad years that already
have four digits; wall-clock years are in 1000..9999). -/
def natDecimal (n : Nat) : String :=
  if n = 0 then "0" else ((Nat.digits 10 n).map Nat.digitChar).reverse.asString

/-- Two-digit zero-padded decimal rendering: the model of the `%m` and
`%d` directives of `strftime`. -/
def pad2 (n : Nat) : String :=
  if n < 10 then "0" ++ natDecimal n else natDecimal n

/-- The model of `datetime.strftime("%Y-%m-%d")` on a date value. -/
def strftimeYmd (d : Date) : String :=
  natDecimal d.year ++ "-" ++ pad2 d.month ++ "-" ++ pad2 d.day

/-- `CurrentDateProvider` (lines 47-53): its state after construction is
the title passed to `__init__` and the frozen date string
`self.date = datetime.now().strftime("%Y-%m-%d")`. -/
structure CurrentDateProvider where
  title : String
  date : String
deriving DecidableEq

/-- `CurrentDateProvider.__init__(title)` run at wall-clock date `now`:
computes and freezes the formatted date once. -/
def CurrentDateProvider.init (title : String) (now : Date) : CurrentDateProvider :=
  { title := title, date := strftimeYmd now }

/-- `CurrentDateProvider.get_info` (lines 52-53): pure string
interpolation over the frozen `self.date`; takes no parameters and
consults nothing but the provider state. -/
def CurrentDateProvider.get_info (p : CurrentDateProvider) : String :=
  "Current date in format YYYY-MM-DD: " ++ p.date

/-- A call of `get_info()` made when the wall clock reads `_now`: the
body of `get_info` never consults the clock, so the argument is unused.
This lets us state staleness / idempotence across wall-clock advance. -/
def CurrentDateProvider.getInfoAt (p : CurrentDateProvider) (_now : Date) : String :=
  p.get_info

/-- The static part of the `SystemPromptGenerator` configuration
(lines 63-78): background statements, steps and output instructions. -/
structure SystemPromptGenerator where
  background : List String
  steps : List String
  output_instructions : List String
deriving DecidableEq

/-- Modelled from the spec: `SystemPromptGenerator.generate_prompt`
itself lives in the external atomic-agents framework (only its
configuration is in src/).  Spec section 4.3: concatenate, in order, the
background statements, the ordered step list, each registered context
provider rendered under its own labeled section, and the output
instructions; pure string composition, no network or I/O.  A run at
wall-clock date `now` renders each provider through `getInfoAt`. -/
def generatePromptAt (g : SystemPromptGenerator) (providers : List CurrentDateProvider)
    (now : Date) : String :=
  String.intercalate "\n" g.background ++ "\n"
    ++ String.intercalate "\n" g.steps ++ "\n"
    ++ String.intercalate "\n"
        (providers.map (fun p => p.title ++ ":\n" ++ p.getInfoAt now)) ++ "\n"
    ++ String.intercalate "\n" g.output_instructions

/-- The concrete generator configuration passed to `BaseAgentConfig`
(lines 63-78). -/
def requirementsGeneratorPromptConfig : SystemPromptGenerator :=
  { background :=
      ["You are a Requirements Generator that generates a set of requirements for the travel plans of the user based on the user input."]
    steps :=
      ["Analyse the user input.",
       "Use any necessary tools if it helps to generated a more refined output.",
       "Translate the user requirements from text input to a structured format.",
       "Validate the structured output against the output schema. If they do not match, change the structure until they do."]
    output_instructions :=
      ["The output should be a contain 1 field: user_requirements.",
       "The user_requirements field should be a dictionary containing the travel requirements of the user.",
       "Ensure the output type is a dictionary."] }

/-- The context providers registered on the agent (line 85): one
`CurrentDateProvider` with title `"Current Date"`, constructed at
wall-clock date `now`. -/
def requirementsGeneratorContextProviders (now : Date) : List CurrentDateProvider :=
  [CurrentDateProvider.init "Current Date" now]

/-- Modelled from the spec: the State 1 (Variant A) output contract of
the sibling configuration file, which is not under src/.  Spec section
4.1: `test_response` is an arbitrary string and `user_requirements` is
an open-ended string-to-string mapping; the sole validation failure
condition is zero entries in the mapping. -/
structure StateOneOutputSchema where
  test_response : String
  user_requirements : List (String × String)
deriving DecidableEq

/-- Modelled from the spec: validation of the State 1 output contract
rejects exactly the mappings with zero entries. -/
def StateOneOutputSchema.validate (test_response : String)
    (user_requirements : List (String × String)) : Option StateOneOutputSchema :=
  if user_requirements.isEmpty then Option.none
  else some { test_response := test_response, user_requirements := user_requirements }

/-! ## Auxiliary lemmas on decimal rendering -/

theorem digitChar_isDigit {d : Nat} (hd : d < 10) : (Nat.digitChar d).isDigit = true := by
  interval_cases d <;> decide

theorem natDecimal_length_of_bounds {k n : Nat} (h1 : 10 ^ k ≤ n) (h2 : n < 10 ^ (k + 1)) :
    (natDecimal n).length = k + 1 := by
  have hn : n ≠ 0 := by
    have : 0 < 10 ^ k := Nat.pos_pow_of_pos k (by norm_num)
    omega
  unfold natDecimal
  rw [if_neg hn]
  have hlen : (Nat.digits 10 n).length = Nat.log 10 n + 1 :=
    Nat.digits_len 10 n (by norm_num) hn
  have hlog : Nat.log 10 n = k := Nat.log_eq_of_pow_le_of_lt_pow h1 h2
  simp [String.length, List.asString, hlen, hlog]

theorem natDecimal_all_isDigit (n : Nat) :
    (natDecimal n).data.all Char.isDigit = true := by
  unfold natDecimal
  split
  · decide
  · show (((Nat.digits 10 _).map Nat.digitChar).reverse).all Char.isDigit = true
    rw [List.all_eq_true]
    intro c hc
    rw [List.mem_reverse] at hc
    obtain ⟨d, hd, rfl⟩ := List.mem_map.mp hc
    exact digitChar_isDigit (Nat.digits_lt_base (by norm_num) hd)

theorem pad2_length {n : Nat} (h : n < 100) : (pad2 n).length = 2 := by
  unfold pad2
  split
  · rcases Nat.eq_zero_or_pos n with h0 | h0
    · subst h0; decide
    · have : (natDecimal n).length = 1 := by
        have := natDecimal_length_of_bounds (k := 0) (n := n) (by simpa using h0)
          (by simpa using ‹n < 10›)
        simpa using this
      rw [String.length_append, this]
      decide
  · have : (natDecimal n).length = 2 := by
      have := natDecimal_length_of_bounds (k := 1) (n := n) (by simpa using Nat.le_of_not_lt ‹¬ n < 10›)
        (by simpa using h)
      simpa using this
    simpa using this

theorem pad2_all_isDigit (n : Nat) : (pad2 n).data.all Char.isDigit = true := by
  unfold pad2
  split
  · rw [String.data_append, List.all_append]
    simp [natDecimal_all_isDigit n]
  · exact natDecimal_all_isDigit n

/-! ## Theorems -/

/-- Claim C5: constructing a `RequirementsGeneratorInputSchema` from any
string `s` succeeds and reading back `chat_message` yields `s`
unchanged: no trimming, normalization or other silent mutation. -/
theorem input_schema_chat_message_roundtrip (s : String) :
    RequirementsGeneratorInputSchema.validate (.str s)
      = some { chat_message := s } := rfl

/-- Claim C6: any value of the wrong type supplied as `chat_message`
makes construction of the `RequirementsGeneratorInputSchema` fail at
schema-construction time; the validator is a pure local function, so
this happens before any backend call. -/
theorem input_schema_rejects_wrong_type (v : PyValue) (h : v.isStr = false) :
    RequirementsGeneratorInputSchema.validate v = Option.none := by
  cases v <;> simp_all [PyValue.isStr, RequirementsGeneratorInputSchema.validate]

/-- Witness for C6 at the concrete non-string input `42`. -/
theorem input_schema_rejects_wrong_type_witness :
    RequirementsGeneratorInputSchema.validate (.int 42) = Option.none :=
  input_schema_rejects_wrong_type (.int 42) rfl

/-- Claim C7: the empty string is accepted for `chat_message`: the input
contract has no non-emptiness guard despite the field being required. -/
theorem input_schema_accepts_empty_string :
    RequirementsGeneratorInputSchema.validate (.str "")
      = some { chat_message := "" } := rfl

/-- Claim C2: for every string `s`, constructing a
`UserRequirementsSchema` with `departure_date = s` and
`departure_time = s` succeeds even when `s` matches neither the
YYYY-MM-DD nor the HH:MM format: the contract validates only that the
fields are strings. -/
theorem user_requirements_accepts_any_string_format (dest s : String) :
    UserRequirementsSchema.validate
        [("destination", .str dest), ("departure_date", .str s), ("departure_time", .str s)]
      = some { destination := dest, departure_date := s, departure_time := s } := rfl

/-- Claim C10: the output contract imposes no non-emptiness constraint
on field contents: all three fields may be the empty string, so the
at-least-one-populated-field invariant is enforced only at the type
level. -/
theorem user_requirements_accepts_all_empty_strings :
    UserRequirementsSchema.validate
        [("destination", .str ""), ("departure_date", .str ""), ("departure_time", .str "")]
      = some { destination := "", departure_date := "", departure_time := "" } := rfl

/-- Claim C1: a candidate output whose `user_requirements` object is
missing any of the three fields fails validation, both directly against
`UserRequirementsSchema` and against the full output contract
`RequirementsGeneratorOutputSchema`, so no partially populated result is
ever produced by validation. -/
theorem output_contract_rejects_missing_field (fields : List (String × PyValue))
    (h : fields.lookup "destination" = Option.none
        ∨ fields.lookup "departure_date" = Option.none
        ∨ fields.lookup "departure_time" = Option.none) :
    UserRequirementsSchema.validate fields = Option.none
    ∧ RequirementsGeneratorOutputSchema.validate
        [("user_requirements", PyValue.dict fields)] = Option.none := by
  have hur : UserRequirementsSchema.validate fields = Option.none := by
    rcases h with h | h | h
    · simp [UserRequirementsSchema.validate, requireStrField, h]
    · cases hd : requireStrField fields "destination" <;>
        simp [UserRequirementsSchema.validate, requireStrField, h, hd]
    · cases hd : requireStrField fields "destination" <;>
        cases hdd : requireStrField fields "departure_date" <;>
          simp [UserRequirementsSchema.validate, requireStrField, h, hd, hdd]
  refine ⟨hur, ?_⟩
  simp [RequirementsGeneratorOutputSchema.validate, asUserRequirements, hur]

/-- Witness for C1: a concrete candidate missing `departure_time` is
rejected by the output contract. -/
theorem output_contract_rejects_missing_field_witness :
    UserRequirementsSchema.validate
        [("destination", PyValue.str "Paris"), ("departure_date", PyValue.str "2024-06-02")]
      = Option.none
    ∧ RequirementsGeneratorOutputSchema.validate
        [("user_requirements", PyValue.dict
            [("destination", PyValue.str "Paris"),
             ("departure_date", PyValue.str "2024-06-02")])] = Option.none :=
  output_contract_rejects_missing_field
    [("destination", PyValue.str "Paris"), ("departure_date", PyValue.str "2024-06-02")]
    (Or.inr (Or.inr rfl))

/-- Claim C8: the State 1 output contract rejects a `user_requirements`
mapping with zero entries and accepts a mapping with exactly one
entry. -/
theorem state_one_output_zero_vs_one_entries (tr k v : String) :
    StateOneOutputSchema.validate tr [] = Option.none
    ∧ StateOneOutputSchema.validate tr [(k, v)]
        = some { test_response := tr, user_requirements := [(k, v)] } :=
  ⟨rfl, rfl⟩

/-- Claim C4: `get_info()` is a pure function of the provider state with
no parameters and it never fails; two calls on the same instance return
the identical string even if the wall clock has advanced between the
calls. -/
theorem current_date_provider_get_info_idempotent (p : CurrentDateProvider)
    (t₁ t₂ : Date) :
    p.getInfoAt t₁ = p.getInfoAt t₂ ∧ p.getInfoAt t₁ = p.get_info :=
  ⟨rfl, rfl⟩

/-- Claim C3: a provider constructed at wall-clock date `now` answers
every later `get_info()` call with exactly the string
`"Current date in format YYYY-MM-DD: <date>"`, where `<date>` is the
construction-time date rendered as a 4-digit year, 2-digit month and
2-digit day, dash-separated; the date is not refreshed on later calls
(the call-time date `later` does not influence the result). -/
theorem current_date_provider_get_info_format (title : String) (now later : Date)
    (hy1 : 1000 ≤ now.year) (hy2 : now.year ≤ 9999)
    (hm : now.month ≤ 12) (hd : now.day ≤ 31) :
    (CurrentDateProvider.init title now).getInfoAt later
        = "Current date in format YYYY-MM-DD: " ++ strftimeYmd now
    ∧ strftimeYmd now = natDecimal now.year ++ "-" ++ pad2 now.month ++ "-" ++ pad2 now.day
    ∧ (natDecimal now.year).length = 4
    ∧ (pad2 now.month).length = 2
    ∧ (pad2 now.day).length = 2
    ∧ (natDecimal now.year).data.all Char.isDigit = true
    ∧ (pad2 now.month).data.all Char.isDigit = true
    ∧ (pad2 now.day).data.all Char.isDigit = true := by
  refine ⟨rfl, rfl, ?_, ?_, ?_, natDecimal_all_isDigit _, pad2_all_isDigit _, pad2_all_isDigit _⟩
  · exact natDecimal_length_of_bounds (k := 3) (by norm_num; omega) (by norm_num; omega)
  · exact pad2_length (by omega)
  · exact pad2_length (by omega)

/-- Witness for C3 at the concrete construction date 2024-06-01 and a
later call date 2024-06-02. -/
theorem current_date_provider_get_info_format_witness :
    (CurrentDateProvider.init "Current Date" ⟨2024, 6, 1⟩).getInfoAt ⟨2024, 6, 2⟩
        = "Current date in format YYYY-MM-DD: " ++ strftimeYmd ⟨2024, 6, 1⟩
    ∧ strftimeYmd ⟨2024, 6, 1⟩ = natDecimal 2024 ++ "-" ++ pad2 6 ++ "-" ++ pad2 1
    ∧ (natDecimal 2024).length = 4
    ∧ (pad2 6).length = 2
    ∧ (pad2 1).length = 2
    ∧ (natDecimal 2024).data.all Char.isDigit = true
    ∧ (pad2 6).data.all Char.isDigit = true
    ∧ (pad2 1).data.all Char.isDigit = true :=
  current_date_provider_get_info_format "Current Date" ⟨2024, 6, 1⟩ ⟨2024, 6, 2⟩
    (by decide) (by decide) (by decide) (by decide)

/-- Claim C9: prompt assembly is deterministic pure string composition:
for a fixed generator configuration and fixed (frozen) context-provider
states, any two runs produce the identical instruction string, even at
different wall-clock dates. -/
theorem system_prompt_generation_deterministic (g : SystemPromptGenerator)
    (providers : List CurrentDateProvider) (t₁ t₂ : Date) :
    generatePromptAt g providers t₁ = generatePromptAt g providers t₂ := rfl

end TransportPlanner
